import Mathlib

/-!
Verification development for the email staging/sending tool (`email.py`) and
the DeepL translation helper (`deepl.py`) of the repository
`k-mktr/llm-tool-calling-examples`.

The Python code is shallowly embedded: the `Tools` object state becomes the
`ToolsState` record; each async method becomes a total Lean function from the
state (plus explicit parameters standing for its external effects: the SMTP
transport outcome and the wall clock) to a result record holding the new
state, the returned string, the status events emitted through
`__event_emitter__` in order, and the message submitted to the transport, if
any.
-/

/-- Embeds the `Tools.Valves` pydantic model of `email.py`.  `PASSWORD`
defaults to Python `None`; it is modelled as `Option String` so that the
falsy values `None` and `""` are both representable. -/
structure Valves where
  FROM_EMAIL : String
  PASSWORD : Option String
  SMTP_SERVER : String
  SMTP_PORT : Nat
  EMAIL_SIGNATURE : String
deriving DecidableEq

/-- Python truthiness of the optional `PASSWORD` string: `None` and the empty
string are falsy, every other string is truthy (`if not self.valves.PASSWORD`). -/
def pyTruthy : Option String → Bool
  | none => false
  | some s => s ≠ ""

/-- Embeds the dict stored in `self.prepared_email` by `prepare_email`:
keys `subject`, `body`, `signature`, `recipients`. -/
structure PreparedEmail where
  subject : String
  body : String
  signature : String
  recipients : String
deriving DecidableEq

/-- The mutable state of a `Tools` instance: its valves and the single
staged-draft slot `self.prepared_email` (`None` when empty). -/
structure ToolsState where
  valves : Valves
  prepared_email : Option PreparedEmail
deriving DecidableEq

/-- One status event passed to `__event_emitter__`: the `status`,
`description` and `done` fields of the emitted `status_object`. -/
structure StatusEvent where
  status : String
  description : String
  done : Bool
deriving DecidableEq

/-- Embeds the `MIMEMultipart('alternative')` message built by
`send_prepared_email`: the `Subject`, `From` and `To` headers, and the
attached parts in `msg.attach` order, each a pair of the part content and
its MIME subtype (`"plain"` or `"html"`). -/
structure MimeMessage where
  subject : String
  fromAddr : String
  toHeader : String
  parts : List (String × String)
deriving DecidableEq

/-- The arguments of the `server.sendmail` call: envelope sender, the
recipient list obtained by splitting the stored recipients string on commas,
and the message. -/
structure Delivery where
  envelopeFrom : String
  toAddrs : List String
  message : MimeMessage
deriving DecidableEq

/-- Result of `prepare_email` / `discard_prepared_email`: the updated state,
the returned string, and the emitted status events in order. -/
structure OpResult where
  state : ToolsState
  result : String
  events : List StatusEvent
deriving DecidableEq

/-- Result of `send_prepared_email`: additionally records the message handed
to `server.sendmail` (`none` when no submission succeeded). -/
structure SendResult where
  state : ToolsState
  result : String
  events : List StatusEvent
  delivered : Option Delivery
deriving DecidableEq

/-- Outcome of the SMTP interaction inside the `try` block, supplied as an
explicit parameter: `SMTP_SSL` construction/connection raising,
`server.login` raising, `server.sendmail` raising (each carrying `str(e)`),
or the whole interaction succeeding. -/
inductive SmtpOutcome where
  | connectError (e : String)
  | loginError (e : String)
  | sendError (e : String)
  | ok
deriving DecidableEq

/-- A wall-clock reading, standing for `datetime.now()` at the moment the
`strftime` call runs. -/
structure DateTime where
  year : Nat
  month : Nat
  day : Nat
  hour : Nat
  minute : Nat
  second : Nat
deriving DecidableEq

/-- Zero-pad a number to two digits, as `strftime` `%m`/`%d`/`%H`/`%M`/`%S`
do for in-range values. -/
def pad2 (n : Nat) : String :=
  if n < 10 then "0" ++ toString n else toString n

/-- Zero-pad a number to four digits, as `strftime` `%Y` does for years
below 10000. -/
def pad4 (n : Nat) : String :=
  if n < 10 then "000" ++ toString n
  else if n < 100 then "00" ++ toString n
  else if n < 1000 then "0" ++ toString n
  else toString n

/-- Embeds `strftime("%Y-%m-%d %H:%M:%S UTC")` applied to a clock reading
(also `format_datetime` of `deepl.py`, which uses the same format string). -/
def formatTimestamp (t : DateTime) : String :=
  pad4 t.year ++ "-" ++ pad2 t.month ++ "-" ++ pad2 t.day ++ " " ++
  pad2 t.hour ++ ":" ++ pad2 t.minute ++ ":" ++ pad2 t.second ++ " UTC"

/-- Python `s.strip(chars)`: remove from both ends every leading/trailing
character belonging to `chars`. -/
def pyStrip (chars : List Char) (s : String) : String :=
  String.mk (((s.data.dropWhile (fun c => chars.contains c)).reverse.dropWhile
    (fun c => chars.contains c)).reverse)

/-- Python `s.replace(c, "")` for a one-character pattern: delete every
occurrence of that character. -/
def removeChar (c : Char) (s : String) : String :=
  String.mk (s.data.filter (fun x => x ≠ c))

/-- The recipients normalization performed at the top of `prepare_email`:
`recipients.strip("[]").replace("'", "").replace('"', '')`. -/
def normalizeRecipients (recipients : String) : String :=
  removeChar '"' (removeChar (Char.ofNat 39) (pyStrip ['[', ']'] recipients))

/-- Helper for `pySplit`: accumulates the current field (reversed) while
scanning. -/
def pySplitAux (sep : Char) : List Char → List Char → List String
  | [], acc => [String.mk acc.reverse]
  | c :: cs, acc =>
      if c = sep then String.mk acc.reverse :: pySplitAux sep cs []
      else pySplitAux sep cs (c :: acc)

/-- Python `s.split(sep)` for a one-character separator: every occurrence of
the separator ends a field, so `"a,b"` gives `["a", "b"]` and `""` gives
`[""]`. -/
def pySplit (sep : Char) (s : String) : List String :=
  pySplitAux sep s.data []

/-- Bool test used in refutations: `pat` occurs as a contiguous substring of
the scanned character list. -/
def containsSubAux (pat : List Char) : List Char → Bool
  | [] => pat.isEmpty
  | c :: cs => pat.isPrefixOf (c :: cs) || containsSubAux pat cs

/-- `pat` occurs as a contiguous substring of `s`. -/
def containsSub (s pat : String) : Bool :=
  containsSubAux pat.data s.data

/-- Embeds Python `html.unescape` restricted to the four basic named
character references `&amp;` `&lt;` `&gt;` `&quot;`; like `html.unescape`,
it leaves all other text unchanged, in particular it is the identity on
strings containing no ampersand, and a decoded character is not rescanned. -/
def unescapeAux : List Char → List Char
  | [] => []
  | c :: cs =>
      if c = '&' then
        match cs with
        | 'a' :: 'm' :: 'p' :: ';' :: cs2 => '&' :: unescapeAux cs2
        | 'l' :: 't' :: ';' :: cs2 => '<' :: unescapeAux cs2
        | 'g' :: 't' :: ';' :: cs2 => '>' :: unescapeAux cs2
        | 'q' :: 'u' :: 'o' :: 't' :: ';' :: cs2 => '"' :: unescapeAux cs2
        | cs2 => c :: unescapeAux cs2
      else c :: unescapeAux cs

/-- `html.unescape` on strings (see `unescapeAux`). -/
def unescape (s : String) : String :=
  String.mk (unescapeAux s.data)

/-- The string returned by `prepare_email` (its f-string, with the
normalized recipients, subject and body interpolated). -/
def prepareResultMessage (subject body recipients : String) : String :=
  "\nEmail prepared for sending:\nTO: " ++ recipients ++
  "\nSUBJECT: " ++ subject ++ "\nBODY: " ++ body ++
  "\n\nPresent prepared email to the user requesting to review its details and confirm if the user wants to send it to the recipients.\nTo send the email, use the \x27send_prepared_email\x27 function.\nTo discard this email and start over, use the \x27discard_prepared_email\x27 function.\nDon\x27t mention the functions to the user. Just ask if they want to send or discard the email.\n"

/-- The string `send_prepared_email` returns when `self.prepared_email` is
falsy. -/
def noEmailPreparedMessage : String :=
  "No email has been prepared. Please use the \x27prepare_email\x27 function first."

/-- The string `send_prepared_email` returns when `self.valves.PASSWORD` is
falsy. -/
def passwordNotSetMessage : String :=
  "Email password is not set. Please set it in your environment variables."

/-- The fixed triple-quoted string `send_prepared_email` returns after a
successful send (including its leading newline and 12-space indentation). -/
def sendSuccessMessage : String :=
  "\n            Message has been sent successfully.\n            Confirm to the user that the email has been sent and thank them for using your service.\n            Don\x27t suggest any further actions to the user.\n            "

/-- The string returned from the `except` branch of `send_prepared_email`:
Python renders `str({"status": "error", "message": f"{str(e)}"})` as a dict
literal with single-quoted keys and values (modelled for messages that
contain no quote character themselves). -/
def errorReturn (e : String) : String :=
  "\x7b\x27status\x27: \x27error\x27, \x27message\x27: \x27" ++ e ++ "\x27\x7d"

/-- The fixed triple-quoted string returned by `discard_prepared_email`
(with its leading newline and 8-space indentation). -/
def discardMessage : String :=
  "\n        The prepared email has been discarded.\n        You can prepare a new email using the \x27prepare_email\x27 function.\n        Don\x27t suggest any actions to the user.\n        "

/-- Embeds `prepare_email(subject, body, recipients)`: normalizes the
recipients, overwrites the staged-draft slot with a dict capturing the
subject, body, the currently configured `EMAIL_SIGNATURE`, and the
normalized recipients, and returns the confirmation f-string. -/
def prepare_email (s : ToolsState) (subject body recipients : String) : OpResult :=
  let recipients := normalizeRecipients recipients
  { state := { s with prepared_email := some (
      { subject := subject, body := body,
        signature := s.valves.EMAIL_SIGNATURE, recipients := recipients } : PreparedEmail) },
    result := prepareResultMessage subject body recipients,
    events := [⟨"in_progress", "Preparing Email", false⟩,
               ⟨"complete", "Email Prepared", true⟩] }

/-- The dual-alternative message assembled inside `send_prepared_email`:
plain text is `unescape(body)` with the signature (when truthy) appended
after `"\n\n"`; HTML is the body as-is with the signature appended after
`"<br><br>"`; the plain part is attached first, then the HTML part. -/
def buildMessage (v : Valves) (d : PreparedEmail) : MimeMessage :=
  let plain_text :=
    unescape d.body ++ (if d.signature ≠ "" then "\n\n" ++ d.signature else "")
  let html_content :=
    d.body ++ (if d.signature ≠ "" then "<br><br>" ++ d.signature else "")
  { subject := d.subject, fromAddr := v.FROM_EMAIL, toHeader := d.recipients,
    parts := [(plain_text, "plain"), (html_content, "html")] }

/-- Embeds `send_prepared_email()`.  Checks, in source order: (1) a staged
draft exists, else the nothing-staged message; (2) the password is truthy,
else the password message.  Then the SMTP interaction runs with outcome
`smtp`; any raise is caught and rendered through `errorReturn` with the
draft left in place, while success clears the slot, formats
`datetime.now()` (the `t` parameter) into the terminal status event, and
returns the fixed success string. -/
def send_prepared_email (s : ToolsState) (smtp : SmtpOutcome) (t : DateTime) : SendResult :=
  match s.prepared_email with
  | none =>
      { state := s, result := noEmailPreparedMessage,
        events := [⟨"error", "Error: No email prepared", true⟩],
        delivered := none }
  | some d =>
      if pyTruthy s.valves.PASSWORD then
        let connecting : StatusEvent := ⟨"in_progress", "Connecting to SMTP server", false⟩
        let sending : StatusEvent := ⟨"in_progress", "Sending email", false⟩
        let msg := buildMessage s.valves d
        match smtp with
        | .connectError e =>
            { state := s, result := errorReturn e,
              events := [connecting, ⟨"error", "Error: " ++ e, true⟩],
              delivered := none }
        | .loginError e =>
            { state := s, result := errorReturn e,
              events := [connecting, ⟨"error", "Error: " ++ e, true⟩],
              delivered := none }
        | .sendError e =>
            { state := s, result := errorReturn e,
              events := [connecting, sending, ⟨"error", "Error: " ++ e, true⟩],
              delivered := none }
        | .ok =>
            { state := { s with prepared_email := none },
              result := sendSuccessMessage,
              events := [connecting, sending,
                ⟨"complete", "Email sent successfully at " ++ formatTimestamp t, true⟩],
              delivered := some ({ envelopeFrom := s.valves.FROM_EMAIL,
                                   toAddrs := pySplit ',' d.recipients,
                                   message := msg } : Delivery) }
      else
        { state := s, result := passwordNotSetMessage,
          events := [⟨"error", "Error: Email password is not set", true⟩],
          delivered := none }

/-- Embeds `discard_prepared_email()`: unconditionally clears the slot and
returns the fixed discard confirmation. -/
def discard_prepared_email (s : ToolsState) : OpResult :=
  { state := { s with prepared_email := none },
    result := discardMessage,
    events := [⟨"in_progress", "Discarding prepared email", false⟩,
               ⟨"complete", "Prepared email discarded", true⟩] }

/-- One element of the `translations` array in the DeepL response JSON
(only its `text` field is read). -/
structure TranslationEntry where
  text : String
deriving DecidableEq

/-- The parsed DeepL response JSON as `get_translation` inspects it:
`translations` is `none` when the key is absent, `some ts` when present. -/
structure TranslationResponse where
  translations : Option (List TranslationEntry)
deriving DecidableEq

/-- Embeds `get_translation` of `deepl.py`.  The HTTP call is abstracted as
its outcome: `Except.error e` when `urlopen` raised a `URLError` (carrying
`str(e)`), `Except.ok r` when a response body parsed to JSON `r`.  The
function returns the first translated segment when `'translations' in
result and len(result['translations']) > 0`, and `None` otherwise; a
`URLError` is caught and also yields `None`. -/
def get_translation (response : Except String TranslationResponse) : Option String :=
  match response with
  | .error _ => none
  | .ok result =>
      match result.translations with
      | some (t :: _) => some t.text
      | some [] => none
      | none => none

/-- A digit occurs somewhere in the string. -/
def hasDigit (s : String) : Bool :=
  s.data.any Char.isDigit

/-- Sample valves with a truthy password, used for concrete witnesses. -/
def sampleValves : Valves :=
  { FROM_EMAIL := "someone@example.com", PASSWORD := some "hunter2",
    SMTP_SERVER := "smtp.gmail.com", SMTP_PORT := 465, EMAIL_SIGNATURE := "" }

/-- A concrete staged draft (the end-to-end scenario of the spec). -/
def sampleDraft : PreparedEmail :=
  { subject := "Hi", body := "Hello<br>World", signature := "",
    recipients := "a@x.com" }

/-- A state with `sampleDraft` staged. -/
def sampleState : ToolsState :=
  { valves := sampleValves, prepared_email := some sampleDraft }

/-- A state with an empty staged-draft slot. -/
def emptyState : ToolsState :=
  { valves := sampleValves, prepared_email := none }

/-- A concrete clock reading. -/
def sampleTime : DateTime :=
  { year := 2026, month := 10, day := 12, hour := 9, minute := 30, second := 5 }

/-- A state with an empty staged-draft slot and the password valve left at
its default `None`: both preconditions of `send_prepared_email` fail. -/
def noCredentialEmptyState : ToolsState :=
  { valves := { sampleValves with PASSWORD := none }, prepared_email := none }

/-- On a character list containing no ampersand, the entity decoder is the
identity — in particular markup such as a line-break marker is left
untouched. -/
theorem unescapeAux_no_amp (l : List Char) (h : ∀ c ∈ l, c ≠ '&') :
    unescapeAux l = l := by
  induction l with
  | nil => rfl
  | cons c cs ih =>
      have hc : c ≠ '&' := h c (List.mem_cons_self c cs)
      have ih2 : unescapeAux cs = cs := ih (fun x hx => h x (List.mem_cons_of_mem c hx))
      rw [unescapeAux.eq_def]
      dsimp only
      rw [if_neg hc, ih2]

/-- On a string containing no ampersand, `unescape` is the identity. -/
theorem unescape_no_amp (s : String) (h : ∀ c ∈ s.data, c ≠ '&') :
    unescape s = s := by
  rw [unescape, unescapeAux_no_amp s.data h]

/-- Claim C1, counterexample.  The claim states that on SMTP success the
returned string contains a timestamp in `YYYY-MM-DD HH:MM:SS UTC` format.
At this concrete staged draft with a configured password and a successful
transport, the slot is indeed cleared, but the returned string contains no
digit character at all — and every timestamp in that format contains
digits — so the returned string contains no such timestamp (the timestamp
only reaches the terminal status notification). -/
theorem C1_counterexample :
    (send_prepared_email sampleState SmtpOutcome.ok sampleTime).state.prepared_email = none ∧
    hasDigit (send_prepared_email sampleState SmtpOutcome.ok sampleTime).result = false :=
  ⟨rfl, by decide⟩

/-- Claim C1, amended.  For every staged draft, when the SMTP transmission
succeeds the staged-draft slot is cleared, the caller receives the fixed
success confirmation string (which contains no digits, hence no
timestamp), and the timestamp of the moment of success, formatted
`YYYY-MM-DD HH:MM:SS UTC` by `formatTimestamp`, appears in the terminal
`complete` status notification. -/
theorem C1_amended_success (s : ToolsState) (d : PreparedEmail) (t : DateTime)
    (h1 : s.prepared_email = some d) (h2 : pyTruthy s.valves.PASSWORD = true) :
    (send_prepared_email s SmtpOutcome.ok t).state.prepared_email = none ∧
    (send_prepared_email s SmtpOutcome.ok t).result = sendSuccessMessage ∧
    hasDigit sendSuccessMessage = false ∧
    (send_prepared_email s SmtpOutcome.ok t).events.getLast? =
      some ⟨"complete", "Email sent successfully at " ++ formatTimestamp t, true⟩ := by
  obtain ⟨v, pe⟩ := s
  cases pe with
  | none => exact Option.noConfusion h1
  | some d0 =>
      refine ⟨?_, ?_, by decide, ?_⟩ <;> simp [send_prepared_email, h2]

/-- Witness for C1: the amended theorem applied to the concrete staged
state, password and clock reading. -/
theorem C1_witness :
    sampleState.prepared_email = some sampleDraft ∧
    pyTruthy sampleState.valves.PASSWORD = true ∧
    ((send_prepared_email sampleState SmtpOutcome.ok sampleTime).state.prepared_email = none ∧
     (send_prepared_email sampleState SmtpOutcome.ok sampleTime).result = sendSuccessMessage ∧
     hasDigit sendSuccessMessage = false ∧
     (send_prepared_email sampleState SmtpOutcome.ok sampleTime).events.getLast? =
       some ⟨"complete", "Email sent successfully at " ++ formatTimestamp sampleTime, true⟩) :=
  ⟨rfl, by decide, C1_amended_success sampleState sampleDraft sampleTime rfl (by decide)⟩

/-- Claim C2.  For every staged draft with a configured password, whatever
step of the SMTP interaction raises (connection, authentication or
submission), the state — hence the staged draft — is left unchanged, no
message is submitted, and the returned text embeds the underlying failure
description; the embedding is a total function, so no exception escapes.
Moreover a subsequent send from that unchanged state with a working
transport clears the slot and delivers the same staged content. -/
theorem C2_send_failure_preserves_draft (s : ToolsState) (d : PreparedEmail)
    (e : String) (t t2 : DateTime)
    (h1 : s.prepared_email = some d) (h2 : pyTruthy s.valves.PASSWORD = true) :
    (∀ o ∈ [SmtpOutcome.connectError e, SmtpOutcome.loginError e, SmtpOutcome.sendError e],
        (send_prepared_email s o t).state = s ∧
        (send_prepared_email s o t).delivered = none ∧
        (send_prepared_email s o t).result = errorReturn e) ∧
    (∃ a b, errorReturn e = a ++ e ++ b) ∧
    (send_prepared_email s SmtpOutcome.ok t2).state.prepared_email = none ∧
    (send_prepared_email s SmtpOutcome.ok t2).delivered =
      some { envelopeFrom := s.valves.FROM_EMAIL, toAddrs := pySplit ',' d.recipients,
             message := buildMessage s.valves d } := by
  obtain ⟨v, pe⟩ := s
  cases pe with
  | none => exact Option.noConfusion h1
  | some d0 =>
      have hd : d0 = d := Option.some.inj h1
      subst hd
      refine ⟨?_, ⟨_, _, rfl⟩, ?_, ?_⟩ <;>
        simp [send_prepared_email, h2]

/-- Witness for C2: the theorem applied to the concrete staged state with
an authentication-failure description. -/
theorem C2_witness :
    sampleState.prepared_email = some sampleDraft ∧
    pyTruthy sampleState.valves.PASSWORD = true ∧
    ((∀ o ∈ [SmtpOutcome.connectError "SMTPAuthenticationError: 535",
             SmtpOutcome.loginError "SMTPAuthenticationError: 535",
             SmtpOutcome.sendError "SMTPAuthenticationError: 535"],
        (send_prepared_email sampleState o sampleTime).state = sampleState ∧
        (send_prepared_email sampleState o sampleTime).delivered = none ∧
        (send_prepared_email sampleState o sampleTime).result =
          errorReturn "SMTPAuthenticationError: 535") ∧
     (∃ a b, errorReturn "SMTPAuthenticationError: 535" =
        a ++ "SMTPAuthenticationError: 535" ++ b) ∧
     (send_prepared_email sampleState SmtpOutcome.ok sampleTime).state.prepared_email = none ∧
     (send_prepared_email sampleState SmtpOutcome.ok sampleTime).delivered =
       some { envelopeFrom := sampleState.valves.FROM_EMAIL,
              toAddrs := pySplit ',' sampleDraft.recipients,
              message := buildMessage sampleState.valves sampleDraft }) :=
  ⟨rfl, by decide, C2_send_failure_preserves_draft sampleState sampleDraft
      "SMTPAuthenticationError: 535" sampleTime sampleTime rfl (by decide)⟩

/-- Claim C3.  Whenever no draft is staged, `send_prepared_email` returns
the nothing-staged message with the state unchanged and nothing delivered;
the result is the same for every transport outcome and clock reading (no
delivery is even attempted), and — the password being unconstrained here —
the credential-missing message is never the result when the slot is empty,
so that message can only ever be returned with a draft staged. -/
theorem C3_staged_check_before_credential (s : ToolsState) (o o2 : SmtpOutcome)
    (t t2 : DateTime) (h : s.prepared_email = none) :
    (send_prepared_email s o t).state = s ∧
    (send_prepared_email s o t).result = noEmailPreparedMessage ∧
    (send_prepared_email s o t).delivered = none ∧
    send_prepared_email s o t = send_prepared_email s o2 t2 ∧
    (send_prepared_email s o t).result ≠ passwordNotSetMessage := by
  obtain ⟨v, pe⟩ := s
  cases pe with
  | some d => exact Option.noConfusion h
  | none =>
      refine ⟨rfl, rfl, rfl, rfl, ?_⟩
      show noEmailPreparedMessage ≠ passwordNotSetMessage
      decide

/-- Witness for C3: the theorem applied to the concrete state with an empty
slot and the password valve at its default `None` — the spec's scenario of
both preconditions failing at once. -/
theorem C3_witness :
    noCredentialEmptyState.prepared_email = none ∧
    ((send_prepared_email noCredentialEmptyState SmtpOutcome.ok sampleTime).state =
        noCredentialEmptyState ∧
     (send_prepared_email noCredentialEmptyState SmtpOutcome.ok sampleTime).result =
        noEmailPreparedMessage ∧
     (send_prepared_email noCredentialEmptyState SmtpOutcome.ok sampleTime).delivered = none ∧
     send_prepared_email noCredentialEmptyState SmtpOutcome.ok sampleTime =
       send_prepared_email noCredentialEmptyState (SmtpOutcome.connectError "down") sampleTime ∧
     (send_prepared_email noCredentialEmptyState SmtpOutcome.ok sampleTime).result ≠
        passwordNotSetMessage) :=
  ⟨rfl, C3_staged_check_before_credential noCredentialEmptyState SmtpOutcome.ok
      (SmtpOutcome.connectError "down") sampleTime sampleTime rfl⟩

/-- Claim C4.  For every call, `prepare_email` stages a draft holding the
subject, the body, the signature valve, and the recipients string with
enclosing bracket characters stripped from both ends and every single- and
double-quote character removed; in particular the stringified-list input of
the spec normalizes to the comma-joined address string. -/
theorem C4_recipient_normalization (s : ToolsState) (subject body recipients : String) :
    (prepare_email s subject body recipients).state.prepared_email =
      some { subject := subject, body := body,
             signature := s.valves.EMAIL_SIGNATURE,
             recipients := removeChar '"' (removeChar (Char.ofNat 39)
               (pyStrip ['[', ']'] recipients)) } ∧
    normalizeRecipients "[\x27a@x.com\x27, \x27b@x.com\x27]" = "a@x.com, b@x.com" :=
  ⟨rfl, by decide⟩

/-- Claim C5, counterexample.  The claim states the plain-text alternative
converts markup line-break markers such as `<br>` to newline characters.
For the staged body `"Hello<br>World"` the delivered plain-text part is
`"Hello<br>World"` itself, which contains no newline character: the marker
is not converted. -/
theorem C5_counterexample :
    ((send_prepared_email sampleState SmtpOutcome.ok sampleTime).delivered.map
        (fun dv => dv.message.parts.map Prod.fst)) =
      some ["Hello<br>World", "Hello<br>World"] ∧
    containsSub "Hello<br>World" "\n" = false :=
  ⟨by decide, by decide⟩

/-- Claim C5, amended.  The plain-text alternative is the body with markup
entities decoded to their literal characters (`html.unescape`) and the
signature, when non-empty, appended after a blank line `"\n\n"`; markup
line-break markers are left unchanged — on any body containing no
ampersand the plain text is the body itself (plus the signature suffix) —
while an entity such as `&amp;` is decoded. -/
theorem C5_amended_plain_text (v : Valves) (d : PreparedEmail)
    (h : ∀ c ∈ d.body.data, c ≠ '&') :
    (buildMessage v d).parts.map Prod.fst =
      [unescape d.body ++ (if d.signature ≠ "" then "\n\n" ++ d.signature else ""),
       d.body ++ (if d.signature ≠ "" then "<br><br>" ++ d.signature else "")] ∧
    (buildMessage v d).parts.map Prod.fst =
      [d.body ++ (if d.signature ≠ "" then "\n\n" ++ d.signature else ""),
       d.body ++ (if d.signature ≠ "" then "<br><br>" ++ d.signature else "")] ∧
    unescape "Hello &amp; World" = "Hello & World" := by
  have hb : unescape d.body = d.body := unescape_no_amp d.body h
  refine ⟨rfl, ?_, by decide⟩
  simp [buildMessage, hb]

/-- Witness for C5: the amended theorem applied to the concrete
ampersand-free draft body. -/
theorem C5_witness :
    (∀ c ∈ sampleDraft.body.data, c ≠ '&') ∧
    ((buildMessage sampleValves sampleDraft).parts.map Prod.fst =
      [unescape sampleDraft.body ++
         (if sampleDraft.signature ≠ "" then "\n\n" ++ sampleDraft.signature else ""),
       sampleDraft.body ++
         (if sampleDraft.signature ≠ "" then "<br><br>" ++ sampleDraft.signature else "")] ∧
     (buildMessage sampleValves sampleDraft).parts.map Prod.fst =
      [sampleDraft.body ++
         (if sampleDraft.signature ≠ "" then "\n\n" ++ sampleDraft.signature else ""),
       sampleDraft.body ++
         (if sampleDraft.signature ≠ "" then "<br><br>" ++ sampleDraft.signature else "")] ∧
     unescape "Hello &amp; World" = "Hello & World") :=
  ⟨by decide, C5_amended_plain_text sampleValves sampleDraft (by decide)⟩

/-- Claim C6.  For every staged draft with a configured password, the
dual-part message submitted by `send_prepared_email` carries its
alternatives in attach order plain text first, then HTML. -/
theorem C6_plain_before_html (s : ToolsState) (d : PreparedEmail) (t : DateTime)
    (h1 : s.prepared_email = some d) (h2 : pyTruthy s.valves.PASSWORD = true) :
    ((send_prepared_email s SmtpOutcome.ok t).delivered.map
        (fun dv => dv.message.parts.map Prod.snd)) = some ["plain", "html"] := by
  obtain ⟨v, pe⟩ := s
  cases pe with
  | none => exact Option.noConfusion h1
  | some d0 =>
      simp [send_prepared_email, h2, buildMessage]

/-- Witness for C6: the theorem applied to the concrete staged state. -/
theorem C6_witness :
    sampleState.prepared_email = some sampleDraft ∧
    pyTruthy sampleState.valves.PASSWORD = true ∧
    ((send_prepared_email sampleState SmtpOutcome.ok sampleTime).delivered.map
        (fun dv => dv.message.parts.map Prod.snd)) = some ["plain", "html"] :=
  ⟨rfl, by decide, C6_plain_before_html sampleState sampleDraft sampleTime rfl (by decide)⟩

/-- Claim C7, counterexample.  The claim states that `discard` on an empty
slot reports a specific nothing-staged condition.  In fact
`discard_prepared_email` returns exactly the same string and emits exactly
the same events whether the slot is empty or holds a draft, that string
differs from the nothing-staged message used by `send_prepared_email`, and
it mentions neither "staged" nor "No email": the empty-slot case is not
reported as such. -/
theorem C7_counterexample :
    (discard_prepared_email emptyState).result = (discard_prepared_email sampleState).result ∧
    (discard_prepared_email emptyState).events = (discard_prepared_email sampleState).events ∧
    (discard_prepared_email emptyState).result ≠ noEmailPreparedMessage ∧
    containsSub (discard_prepared_email emptyState).result "staged" = false ∧
    containsSub (discard_prepared_email emptyState).result "No email" = false :=
  ⟨rfl, rfl, by decide, by decide, by decide⟩

/-- Claim C7, amended.  On an empty slot, `send_prepared_email` is a no-op
that reports the specific nothing-staged message and delivers nothing,
while `discard_prepared_email` leaves the state unchanged (idempotently
clearing the already-empty slot) and returns its fixed discard
confirmation — the same text as when a draft was staged, not a
nothing-staged report. -/
theorem C7_amended_empty_slot (s : ToolsState) (o : SmtpOutcome) (t : DateTime)
    (h : s.prepared_email = none) :
    (send_prepared_email s o t).state = s ∧
    (send_prepared_email s o t).result = noEmailPreparedMessage ∧
    (send_prepared_email s o t).delivered = none ∧
    (discard_prepared_email s).state = s ∧
    (discard_prepared_email s).result = discardMessage := by
  obtain ⟨v, pe⟩ := s
  cases pe with
  | some d => exact Option.noConfusion h
  | none => exact ⟨rfl, rfl, rfl, rfl, rfl⟩

/-- Witness for C7: the amended theorem applied to the concrete empty
state. -/
theorem C7_witness :
    emptyState.prepared_email = none ∧
    ((send_prepared_email emptyState (SmtpOutcome.connectError "boom") sampleTime).state =
        emptyState ∧
     (send_prepared_email emptyState (SmtpOutcome.connectError "boom") sampleTime).result =
        noEmailPreparedMessage ∧
     (send_prepared_email emptyState (SmtpOutcome.connectError "boom") sampleTime).delivered =
        none ∧
     (discard_prepared_email emptyState).state = emptyState ∧
     (discard_prepared_email emptyState).result = discardMessage) :=
  ⟨rfl, C7_amended_empty_slot emptyState (SmtpOutcome.connectError "boom") sampleTime rfl⟩

/-- Claim C8.  After `prepare` A then `prepare` B, exactly the B draft is
staged — subject, body, signature valve and normalized recipients of the
second call, the first call's draft being overwritten — and a successful
send from that state delivers precisely the message built from the B
draft. -/
theorem C8_prepare_overwrites (s : ToolsState) (su1 b1 r1 su2 b2 r2 : String)
    (t : DateTime) (h : pyTruthy s.valves.PASSWORD = true) :
    ((prepare_email (prepare_email s su1 b1 r1).state su2 b2 r2).state.prepared_email =
      some { subject := su2, body := b2, signature := s.valves.EMAIL_SIGNATURE,
             recipients := normalizeRecipients r2 }) ∧
    ((send_prepared_email (prepare_email (prepare_email s su1 b1 r1).state su2 b2 r2).state
        SmtpOutcome.ok t).delivered =
      some { envelopeFrom := s.valves.FROM_EMAIL,
             toAddrs := pySplit ',' (normalizeRecipients r2),
             message := buildMessage s.valves
               { subject := su2, body := b2, signature := s.valves.EMAIL_SIGNATURE,
                 recipients := normalizeRecipients r2 } }) := by
  refine ⟨rfl, ?_⟩
  simp [prepare_email, send_prepared_email, h]

/-- Witness for C8: prepare A, prepare B, then a successful send, at
concrete inputs. -/
theorem C8_witness :
    pyTruthy emptyState.valves.PASSWORD = true ∧
    (((prepare_email (prepare_email emptyState "A" "bodyA" "a@x.com").state
         "B" "bodyB" "b@x.com").state.prepared_email =
       some { subject := "B", body := "bodyB",
              signature := emptyState.valves.EMAIL_SIGNATURE,
              recipients := normalizeRecipients "b@x.com" }) ∧
     ((send_prepared_email (prepare_email (prepare_email emptyState "A" "bodyA" "a@x.com").state
          "B" "bodyB" "b@x.com").state SmtpOutcome.ok sampleTime).delivered =
       some { envelopeFrom := emptyState.valves.FROM_EMAIL,
              toAddrs := pySplit ',' (normalizeRecipients "b@x.com"),
              message := buildMessage emptyState.valves
                { subject := "B", body := "bodyB",
                  signature := emptyState.valves.EMAIL_SIGNATURE,
                  recipients := normalizeRecipients "b@x.com" } })) :=
  ⟨by decide, C8_prepare_overwrites emptyState "A" "bodyA" "a@x.com" "B" "bodyB" "b@x.com"
      sampleTime (by decide)⟩

/-- Claim C9.  `get_translation` returns the absence value `none` whenever
the response JSON carries an empty `translations` array, whenever the key
is absent, and whenever the HTTP layer raised a transport error — in every
case by returning, never by raising (the embedding is a total function). -/
theorem C9_translation_absence (e : String) :
    get_translation (Except.error e) = none ∧
    get_translation (Except.ok { translations := some [] }) = none ∧
    get_translation (Except.ok { translations := none }) = none :=
  ⟨rfl, rfl, rfl⟩

/-- Claim C10.  The signature sent is the one captured at `prepare` time:
staging a draft, then changing the `EMAIL_SIGNATURE` valve to any other
value, then sending successfully, delivers the message built with the
signature that was configured when `prepare_email` ran. -/
theorem C10_signature_captured_at_prepare (s : ToolsState)
    (subject body recipients sig2 : String) (t : DateTime)
    (h : pyTruthy s.valves.PASSWORD = true) :
    (send_prepared_email
        { (prepare_email s subject body recipients).state with
          valves := { (prepare_email s subject body recipients).state.valves with
                      EMAIL_SIGNATURE := sig2 } }
        SmtpOutcome.ok t).delivered =
      some { envelopeFrom := s.valves.FROM_EMAIL,
             toAddrs := pySplit ',' (normalizeRecipients recipients),
             message := buildMessage s.valves
               { subject := subject, body := body,
                 signature := s.valves.EMAIL_SIGNATURE,
                 recipients := normalizeRecipients recipients } } := by
  simp [prepare_email, send_prepared_email, buildMessage, h]

/-- Witness for C10: prepare, change the signature valve, send, at concrete
inputs. -/
theorem C10_witness :
    pyTruthy sampleState.valves.PASSWORD = true ∧
    (send_prepared_email
        { (prepare_email sampleState "Hi" "Hello" "a@x.com").state with
          valves := { (prepare_email sampleState "Hi" "Hello" "a@x.com").state.valves with
                      EMAIL_SIGNATURE := "Changed Sig" } }
        SmtpOutcome.ok sampleTime).delivered =
      some { envelopeFrom := sampleState.valves.FROM_EMAIL,
             toAddrs := pySplit ',' (normalizeRecipients "a@x.com"),
             message := buildMessage sampleState.valves
               { subject := "Hi", body := "Hello",
                 signature := sampleState.valves.EMAIL_SIGNATURE,
                 recipients := normalizeRecipients "a@x.com" } } :=
  ⟨by decide, C10_signature_captured_at_prepare sampleState "Hi" "Hello" "a@x.com"
      "Changed Sig" sampleTime (by decide)⟩
